import Mathlib

/-!
# Verification of `main.go` (OpenTelemetry manual-instrumentation demo)

Shallow embedding of the program in `src/main.go`:

* `divide` over Go's 64-bit signed `int` (values are `Int`, results of
  arithmetic are wrapped into the two's-complement range);
* the tracing calls made by `parentFunction`, `childFunction` and
  `exceptionFunction`, as explicit state passing over a process state `Proc`
  that holds the span store, the log of span operations and the log lines;
* the tracer bootstrap `JaegerTraceProvider` / `initJaegerTracer` and `main`,
  with the exporter constructor and the provider shutdown taken as
  parameters (`External`).
-/

namespace OtelManual

/-! ## Go values -/

/-- Go `error` value produced by `errors.New`: it carries its message text. -/
structure GoError where
  msg : String
  deriving DecidableEq, Repr

/-- The call `errors.New(text)`. -/
def errors.New (text : String) : GoError := ⟨text⟩

/-- The method `err.Error()`. -/
def GoError.Error (e : GoError) : String := e.msg

/-- Smallest value of Go's 64-bit `int`. -/
def minInt64 : Int := -(2 ^ 63)

/-- Largest value of Go's 64-bit `int`. -/
def maxInt64 : Int := 2 ^ 63 - 1

/-- A value of Go's 64-bit `int`. -/
def isInt64 (v : Int) : Prop := minInt64 ≤ v ∧ v ≤ maxInt64

instance (v : Int) : Decidable (isInt64 v) := by
  unfold isInt64; exact inferInstance

/-- Two's-complement wrap of a mathematical integer into 64 bits. -/
def wrapInt64 (v : Int) : Int := (v + 2 ^ 63) % 2 ^ 64 - 2 ^ 63

/-- Go's `x / y` on `int` for `y ≠ 0`: quotient truncated toward zero, wrapped
into 64 bits (the language defines `minInt / -1` to wrap). -/
def goDiv (x y : Int) : Int := wrapInt64 (Int.tdiv x y)

/-- Source `divide` (main.go:107-112): the returned pair is
`(quotient, error)`, with `none` for a nil error. -/
def divide (x y : Int) : Int × Option GoError :=
  if y = 0 then
    (-1, some (errors.New "division by zero"))
  else
    (goDiv x y, none)

/-! ## The tracing library, as seen by the program -/

/-- Key/value pair built by `attribute.String(key, value)`. -/
structure KeyValue where
  key : String
  value : String
  deriving DecidableEq, Repr

/-- The call `attribute.String(k, v)`. -/
def attribute.String (k v : String) : KeyValue := ⟨k, v⟩

/-- Status codes of package `codes`. -/
inductive codes where
  | Unset
  | Error
  | Ok
  deriving DecidableEq, Repr

/-- Identity of a span: its position in the span store, in start order. -/
abbrev SpanId := Nat

/-- Modelled from the spec: the lifecycle of a span of the tracing library
(not part of this repository), "unstarted → active → ended"; an unstarted span
is one that is absent from the span store. -/
inductive SpanState where
  | active
  | ended
  deriving DecidableEq, Repr

/-- Modelled from the spec: the span record of the tracing library, "a name, a
set of key/value attributes, zero or more events, an optional error status",
at most one parent, and its lifecycle state. `tracer` is the name of the
tracer that started it; `events` holds what `AddEvent` added and
`recordedErrors` what `RecordError` recorded. -/
structure Span where
  name : String
  tracer : String
  parent : Option SpanId
  attributes : List KeyValue
  events : List String
  recordedErrors : List GoError
  status : codes × String
  state : SpanState
  deriving DecidableEq, Repr

/-- Modelled from the spec: `context.Context`, "an immutable context value
threaded through function parameters, carrying an optional reference to the
currently active span". -/
structure Context where
  span : Option SpanId
  deriving DecidableEq, Repr

/-- The call `context.Background()`: no active span. -/
def context.Background : Context := ⟨none⟩

/-- One call into the span API, as recorded in the operation log. -/
inductive SpanOp where
  | Start (id : SpanId) (name : String) (tracer : String) (parent : Option SpanId)
      (attrs : List KeyValue)
  | AddEvent (id : SpanId) (name : String)
  | RecordError (id : SpanId) (err : GoError)
  | SetStatus (id : SpanId) (code : codes) (description : String)
  | End (id : SpanId)
  deriving DecidableEq, Repr

/-- The span an operation is applied to. -/
def SpanOp.id : SpanOp → SpanId
  | .Start id _ _ _ _ => id
  | .AddEvent id _ => id
  | .RecordError id _ => id
  | .SetStatus id _ _ => id
  | .End id => id

/-- The formats installed by `otel.SetTextMapPropagator`. -/
inductive TextMapPropagator where
  | TraceContext
  | Baggage
  deriving DecidableEq, Repr

/-- Exporter built by `jaeger.New` for a collector endpoint. -/
structure Exporter where
  endpoint : String
  deriving DecidableEq, Repr

/-- Value of `resource.NewWithAttributes(schemaURL, attrs...)`. -/
structure Resource where
  schemaURL : String
  attributes : List KeyValue
  deriving DecidableEq, Repr

/-- Value of `sdktrace.NewTracerProvider(WithBatcher(exp), WithResource(r))`. -/
structure TracerProvider where
  batcher : Exporter
  resource : Resource
  deriving DecidableEq, Repr

/-- Handle returned by `provider.Tracer(name)`; the provider is a Go pointer. -/
structure Tracer where
  provider : Option TracerProvider
  name : String
  deriving DecidableEq, Repr

/-- State of the running process that the program reads and writes: the span
store and the log of span operations (tracing library), the lines written by
package `log`, and the process-wide registry of package `otel`. -/
structure Proc where
  spans : List Span
  trace : List SpanOp
  logs : List String
  tracerProvider : Option TracerProvider
  propagator : List TextMapPropagator
  shutdowns : Nat
  deriving DecidableEq, Repr

/-- Process state at program start. -/
def Proc.initial : Proc :=
  { spans := [], trace := [], logs := [], tracerProvider := none, propagator := [], shutdowns := 0 }

/-- How a call ends: it returns a value, or the process has terminated with an
exit code (`os.Exit`). -/
inductive Outcome (α : Type) where
  | returned (a : α) (p : Proc)
  | exited (code : Int) (p : Proc)

/-- Apply `f` to the element at position `n`, if there is one. -/
def modifyAt (f : Span → Span) : Nat → List Span → List Span
  | _, [] => []
  | 0, s :: ss => f s :: ss
  | n + 1, s :: ss => s :: modifyAt f n ss

/-- Modelled from the spec: a mutation of a span is a transition
"active → active"; a span that is not active (ended, or never started) is
left as it is. -/
def mutate (id : SpanId) (f : Span → Span) (spans : List Span) : List Span :=
  modifyAt (fun s => if s.state = SpanState.active then f s else s) id spans

/-- Modelled from the spec: the effect of one span operation on the span
store. `Start` creates an active span (the next position of the store is its
identity); the mutations and `End` act on an active span only. -/
def SpanOp.apply : SpanOp → List Span → List Span
  | SpanOp.Start _ name tracer parent attrs, spans =>
    spans ++ [{ name := name, tracer := tracer, parent := parent, attributes := attrs,
                events := [], recordedErrors := [], status := (codes.Unset, ""),
                state := SpanState.active }]
  | SpanOp.AddEvent id name, spans =>
    mutate id (fun s => { s with events := s.events ++ [name] }) spans
  | SpanOp.RecordError id err, spans =>
    mutate id (fun s => { s with recordedErrors := s.recordedErrors ++ [err] }) spans
  | SpanOp.SetStatus id code description, spans =>
    mutate id (fun s => { s with status := (code, description) }) spans
  | SpanOp.End id, spans =>
    mutate id (fun s => { s with state := SpanState.ended }) spans

/-- Perform one span operation: it takes effect on the span store and is
appended to the operation log. -/
def Proc.step (op : SpanOp) (p : Proc) : Proc :=
  { p with spans := op.apply p.spans, trace := p.trace ++ [op] }

/-- Modelled from the spec: `tracer.Start(ctx, name, WithAttributes(attrs...))`
creates an active span whose parent is the span carried by `ctx`, and returns
the derived context carrying the new span together with the span. -/
def Tracer.Start (tracer : Tracer) (ctx : Context) (spanName : String)
    (attrs : List KeyValue) (p : Proc) : (Context × SpanId) × Proc :=
  let id := p.spans.length
  ((⟨some id⟩, id), p.step (SpanOp.Start id spanName tracer.name ctx.span attrs))

/-- Modelled from the spec: `span.AddEvent(name)` adds one event to an active span. -/
def Span.AddEvent (span : SpanId) (name : String) (p : Proc) : Proc :=
  p.step (SpanOp.AddEvent span name)

/-- Modelled from the spec: `span.RecordError(err)` records the error on an
active span. -/
def Span.RecordError (span : SpanId) (err : GoError) (p : Proc) : Proc :=
  p.step (SpanOp.RecordError span err)

/-- Modelled from the spec: `span.SetStatus(code, description)` sets the status
of an active span. -/
def Span.SetStatus (span : SpanId) (code : codes) (description : String) (p : Proc) : Proc :=
  p.step (SpanOp.SetStatus span code description)

/-- Modelled from the spec: `span.End()` is the transition "active → ended";
the call is logged also when the span is not active. -/
def Span.End (span : SpanId) (p : Proc) : Proc :=
  p.step (SpanOp.End span)

/-- The call `log.Printf(...)`, given the formatted line. -/
def log.Printf (line : String) (p : Proc) : Proc :=
  { p with logs := p.logs ++ [line] }

/-- The call `log.Fatal(err)`: print the error, then `os.Exit(1)`. -/
def log.Fatal {α : Type} (err : GoError) (p : Proc) : Outcome α :=
  Outcome.exited 1 { p with logs := p.logs ++ [err.Error] }

/-- Run the deferred calls of a returning function; the list holds the call
registered last at its head. -/
def runDeferred (deferred : List (Proc → Proc)) (p : Proc) : Proc :=
  deferred.foldl (fun q d => d q) p

/-! ## The span routines (main.go:65-105) -/

/-- Source `childFunction` (main.go:81-91). -/
def childFunction (ctx : Context) (tracer : Tracer) (p : Proc) : Proc :=
  let r := tracer.Start ctx "childSpanName"
    [attribute.String "childAttributeKey1" "childAttributeValue1"] p
  let childSpan := r.1.2
  let p := r.2
  let p := Span.AddEvent childSpan "ChildSpan-Event" p
  let deferred := [Span.End childSpan]
  let p := log.Printf "In child span, when this function returns, childSpan will complete." p
  runDeferred deferred p

/-- Source `parentFunction` (main.go:65-79). -/
def parentFunction (ctx : Context) (tracer : Tracer) (p : Proc) : Proc :=
  let r := tracer.Start ctx "parentSpanName"
    [attribute.String "parentAttributeKey1" "parentAttributeValue1"] p
  let ctx := r.1.1
  let parentSpan := r.1.2
  let p := r.2
  let p := Span.AddEvent parentSpan "ParentSpan-Event" p
  let p := log.Printf "In parent span, before calling a child function." p
  let deferred := [Span.End parentSpan]
  let p := childFunction ctx tracer p
  let p := log.Printf "In parent span, after calling a child function. When this function ends, parentSpan will complete." p
  runDeferred deferred p

/-- Source `exceptionFunction` (main.go:93-105). -/
def exceptionFunction (ctx : Context) (tracer : Tracer) (p : Proc) : Proc :=
  let r := tracer.Start ctx "exceptionSpanName"
    [attribute.String "exceptionAttributeKey1" "exceptionAttributeValue1"] p
  let exceptionSpan := r.1.2
  let p := r.2
  let deferred := [Span.End exceptionSpan]
  let p := log.Printf "Call division function." p
  let err := (divide 10 0).2
  let p :=
    match err with
    | some err =>
      let p := Span.RecordError exceptionSpan err p
      Span.SetStatus exceptionSpan codes.Error err.Error p
    | none => p
  runDeferred deferred p

/-! ## Tracer bootstrap and program entry (main.go:19-63) -/

/-- The parts of the tracing library whose result the program cannot
determine: whether `jaeger.New` builds an exporter for an endpoint, and the
error (if any) returned by the provider's `Shutdown`. -/
structure External where
  jaegerNew : String → Except GoError Exporter
  shutdown : Option TracerProvider → Proc → Option GoError

/-- Constant `semconv.SchemaURL` of `semconv/v1.7.0`. -/
def semconv.SchemaURL : String := "https://opentelemetry.io/schemas/1.7.0"

/-- Constant `semconv.ServiceNameKey`. -/
def semconv.ServiceNameKey : String := "service.name"

/-- Constant `semconv.DeploymentEnvironmentKey`. -/
def semconv.DeploymentEnvironmentKey : String := "deployment.environment"

/-- The collector endpoint passed to `jaeger.WithEndpoint` (main.go:34). -/
def collectorEndpoint : String := "http://localhost:14268/api/traces"

/-- Source `JaegerTraceProvider` (main.go:33-47): the returned pair is
`(provider pointer, error)`. -/
def JaegerTraceProvider (ext : External) : Option TracerProvider × Option GoError :=
  match ext.jaegerNew collectorEndpoint with
  | Except.error err => (none, some err)
  | Except.ok exp =>
    let tp : TracerProvider :=
      { batcher := exp,
        resource :=
          { schemaURL := semconv.SchemaURL,
            attributes :=
              [attribute.String semconv.ServiceNameKey "manual-service",
               attribute.String semconv.DeploymentEnvironmentKey "manual-env"] } }
    (some tp, none)

/-- The call `otel.SetTracerProvider(tp)`. -/
def otel.SetTracerProvider (tp : Option TracerProvider) (p : Proc) : Proc :=
  { p with tracerProvider := tp }

/-- The call `otel.SetTextMapPropagator(NewCompositeTextMapPropagator(ps...))`. -/
def otel.SetTextMapPropagator (ps : List TextMapPropagator) (p : Proc) : Proc :=
  { p with propagator := ps }

/-- The call `otel.GetTracerProvider()`. -/
def otel.GetTracerProvider (p : Proc) : Option TracerProvider := p.tracerProvider

/-- The call `provider.Tracer(name)`. -/
def TracerProvider.Tracer (tp : Option TracerProvider) (name : String) : Tracer :=
  { provider := tp, name := name }

/-- The call `tp.Shutdown(ctx)`: the provider is shut down once more, and the
library reports an error or nil. -/
def TracerProvider.Shutdown (ext : External) (tp : Option TracerProvider) (p : Proc) :
    Option GoError × Proc :=
  (ext.shutdown tp p, { p with shutdowns := p.shutdowns + 1 })

/-- The closure returned by `initJaegerTracer` (main.go:27-31), for the
provider `tp` it captures. -/
def shutdownHandle (ext : External) (tp : Option TracerProvider) (p : Proc) : Outcome Unit :=
  let r := TracerProvider.Shutdown ext tp p
  match r.1 with
  | some err =>
    Outcome.returned () (log.Printf ("failed to shutdown TracerProvider: " ++ err.Error) r.2)
  | none => Outcome.returned () r.2

/-- Source `initJaegerTracer` (main.go:19-32): returns the shutdown closure, or
the process has terminated in `log.Fatal`. -/
def initJaegerTracer (ext : External) (p : Proc) : Outcome (Proc → Outcome Unit) :=
  match JaegerTraceProvider ext with
  | (_, some err) => log.Fatal err p
  | (tp, none) =>
    let p := otel.SetTracerProvider tp p
    let p := otel.SetTextMapPropagator
      [TextMapPropagator.TraceContext, TextMapPropagator.Baggage] p
    Outcome.returned (shutdownHandle ext tp) p

/-- Source `main` (main.go:49-63), run from process state `p`; the deferred
`shutdown()` runs when `main` returns. -/
def main (ext : External) (p : Proc) : Outcome Unit :=
  match initJaegerTracer ext p with
  | Outcome.exited code p => Outcome.exited code p
  | Outcome.returned shutdown p =>
    let basicTracer := TracerProvider.Tracer (otel.GetTracerProvider p) "basic-tracer"
    let exceptionTracer := TracerProvider.Tracer (otel.GetTracerProvider p) "exception-tracer"
    let ctx := context.Background
    let p := parentFunction ctx basicTracer p
    let p := exceptionFunction ctx exceptionTracer p
    shutdown p

/-- The process state in which a call ended. -/
def Outcome.proc {α : Type} : Outcome α → Proc
  | Outcome.returned _ p => p
  | Outcome.exited _ p => p

/-- The call terminated the process. -/
def Outcome.isExited {α : Type} : Outcome α → Bool
  | Outcome.returned _ _ => false
  | Outcome.exited _ _ => true

/-- An external world in which the exporter is built and shutdown succeeds. -/
def External.healthy : External :=
  { jaegerNew := fun url => Except.ok ⟨url⟩, shutdown := fun _ _ => none }

/-- An external world in which the exporter cannot be built. -/
def External.noExporter : External :=
  { jaegerNew := fun _ => Except.error (errors.New "invalid endpoint"),
    shutdown := fun _ _ => none }

/-- An external world in which the exporter is built and shutdown fails. -/
def External.failingShutdown : External :=
  { jaegerNew := fun url => Except.ok ⟨url⟩,
    shutdown := fun _ _ => some (errors.New "context deadline exceeded") }

/-! ## Reading the operation log -/

/-- The span store after the operations `ops`, performed in order. -/
def replay (ops : List SpanOp) (spans : List Span) : List Span :=
  ops.foldl (fun store op => op.apply store) spans

/-- The span operations performed by the call `f` when run from state `p`. -/
def opsOf (f : Proc → Proc) (p : Proc) : List SpanOp :=
  (f p).trace.drop p.trace.length

/-- The spans started in `ops`, in start order. -/
def startedIn (ops : List SpanOp) : List SpanId :=
  ops.filterMap fun op =>
    match op with
    | SpanOp.Start id _ _ _ _ => some id
    | _ => none

/-- The spans on which `End` is called in `ops`, one entry per call. -/
def endedIn (ops : List SpanOp) : List SpanId :=
  ops.filterMap fun op =>
    match op with
    | SpanOp.End id => some id
    | _ => none

/-- The lifecycle state of span `id` in a span store; `none` when unstarted. -/
def stateOf (spans : List Span) (id : SpanId) : Option SpanState :=
  spans[id]?.map Span.state

/-- The call `f`, run from state `p`, only appends to the operation log; every
span it starts it ends exactly once and leaves ended; it calls `End` on no span
twice, and on no span it did not start. -/
def EndsItsSpans (f : Proc → Proc) (p : Proc) : Prop :=
  (f p).trace = p.trace ++ opsOf f p ∧
    (∀ id ∈ startedIn (opsOf f p),
      (endedIn (opsOf f p)).count id = 1 ∧ stateOf (f p).spans id = some SpanState.ended) ∧
    (endedIn (opsOf f p)).Nodup ∧
    ∀ id ∈ endedIn (opsOf f p), id ∈ startedIn (opsOf f p)

/-! ## Lemmas on 64-bit arithmetic -/

theorem wrapInt64_of_isInt64 (v : Int) (h : isInt64 v) : wrapInt64 v = v := by
  unfold isInt64 minInt64 maxInt64 at h
  unfold wrapInt64
  norm_num at h ⊢
  omega

theorem natAbs_le_of_isInt64 (x : Int) (hx : isInt64 x) : x.natAbs ≤ 2 ^ 63 := by
  unfold isInt64 minInt64 maxInt64 at hx
  norm_num at hx ⊢
  omega

/-- The truncated quotient of an `int` by a non-zero `int` is an `int`, except
for `minInt64 / -1`. -/
theorem tdiv_isInt64 (x y : Int) (hx : isInt64 x) (h0 : y ≠ 0)
    (hne : ¬ (x = minInt64 ∧ y = -1)) : isInt64 (Int.tdiv x y) := by
  have hq : (Int.tdiv x y).natAbs = x.natAbs / y.natAbs := Int.natAbs_tdiv x y
  have hxa := natAbs_le_of_isInt64 x hx
  have hya : 0 < y.natAbs := Int.natAbs_pos.mpr h0
  by_cases h1 : y = 1
  · subst h1
    simpa using hx
  by_cases hm : y = -1
  · subst hm
    have hx2 : x ≠ minInt64 := fun h => hne ⟨h, rfl⟩
    have : Int.tdiv x (-1) = -x := by
      rw [Int.tdiv_neg, Int.tdiv_one]
    rw [this]
    unfold isInt64 minInt64 maxInt64 at hx ⊢
    unfold minInt64 at hx2
    norm_num at hx hx2 ⊢
    omega
  · have hy2 : 2 ≤ y.natAbs := by omega
    have hle : x.natAbs / y.natAbs ≤ x.natAbs / 2 :=
      Nat.div_le_div_left hy2 (by decide)
    have hlt : (Int.tdiv x y).natAbs < 2 ^ 63 := by
      rw [hq]
      norm_num at hxa ⊢
      omega
    unfold isInt64 minInt64 maxInt64
    norm_num at hlt ⊢
    omega

theorem isInt64_minInt64 : isInt64 minInt64 := by decide

/-! ## The division helper -/

/-- Sample evaluations of `divide`. -/
theorem divide_samples :
    divide 7 2 = (3, none) ∧ divide (-7) 2 = (-3, none) ∧ divide 7 (-2) = (-3, none) ∧
      divide 7 0 = (-1, some ⟨"division by zero"⟩) ∧
      divide minInt64 (-1) = (minInt64, none) := by
  decide

/-- C1, as stated, fails on 64-bit `int`: `divide(-2^63, -1)` has a non-zero
divisor, yet its quotient is not the quotient truncated toward zero. -/
theorem divide_truncating_fails_at_min :
    isInt64 minInt64 ∧ isInt64 (-1) ∧ (-1 : Int) ≠ 0 ∧
      divide minInt64 (-1) ≠ (Int.tdiv minInt64 (-1), none) := by
  decide

/-- C1 (amended): for `int` operands with `y ≠ 0`, `divide x y` returns no error
and the quotient truncated toward zero wrapped into 64 bits; this is the
truncated quotient itself unless `x = -2^63` and `y = -1`. -/
theorem divide_nonzero (x y : Int) (hx : isInt64 x) (_hy : isInt64 y) (h0 : y ≠ 0) :
    divide x y = (wrapInt64 (Int.tdiv x y), none) ∧
      (¬ (x = minInt64 ∧ y = -1) → divide x y = (Int.tdiv x y, none)) := by
  have hd : divide x y = (wrapInt64 (Int.tdiv x y), none) := by
    simp [divide, goDiv, h0]
  refine ⟨hd, fun hne => ?_⟩
  rw [hd, wrapInt64_of_isInt64 _ (tdiv_isInt64 x y hx h0 hne)]

/-- Witness of `divide_nonzero` at `divide(-7, 2)`. -/
theorem divide_nonzero_witness :
    divide (-7) 2 = (wrapInt64 (Int.tdiv (-7) 2), none) ∧
      (¬ ((-7 : Int) = minInt64 ∧ (2 : Int) = -1) → divide (-7) 2 = (Int.tdiv (-7) 2, none)) :=
  divide_nonzero (-7) 2 (by decide) (by decide) (by decide)

/-- C2: for every `x`, `divide x 0` returns the quotient `-1` and a non-nil error
whose message is exactly "division by zero"; the result is the same for every
`x`. -/
theorem divide_by_zero (x : Int) :
    divide x 0 = (-1, some (errors.New "division by zero")) ∧
      (divide x 0).2.map GoError.Error = some "division by zero" ∧
      ∀ x' : Int, divide x' 0 = divide x 0 := by
  simp [divide, errors.New, GoError.Error]

/-- C9: on 64-bit `int`, for `y ≠ 0` and `(x, y) ≠ (-2^63, -1)` the quotient
returned by `divide` is the quotient truncated toward zero and is an `int`;
`divide(-2^63, -1)` returns `(-2^63, nil)`, which differs from the mathematical
quotient `2^63`. -/
theorem divide_int64 :
    (∀ x y : Int, isInt64 x → isInt64 y → y ≠ 0 → (x, y) ≠ (minInt64, -1) →
        (divide x y).1 = Int.tdiv x y ∧ isInt64 (divide x y).1 ∧ (divide x y).2 = none) ∧
      divide minInt64 (-1) = (minInt64, none) ∧
      Int.tdiv minInt64 (-1) = 2 ^ 63 ∧
      (divide minInt64 (-1)).1 ≠ Int.tdiv minInt64 (-1) := by
  refine ⟨fun x y hx _ h0 hne => ?_, by decide, by decide, by decide⟩
  have hr : isInt64 (Int.tdiv x y) :=
    tdiv_isInt64 x y hx h0 (fun h => hne (by rw [h.1, h.2]))
  have hd : divide x y = (Int.tdiv x y, none) := by
    simp [divide, goDiv, h0, wrapInt64_of_isInt64 _ hr]
  rw [hd]
  exact ⟨rfl, hr, rfl⟩

/-- Witness of `divide_int64` at `divide(maxInt64, -1)`. -/
theorem divide_int64_witness :
    (divide maxInt64 (-1)).1 = Int.tdiv maxInt64 (-1) ∧ isInt64 (divide maxInt64 (-1)).1 ∧
      (divide maxInt64 (-1)).2 = none :=
  divide_int64.1 maxInt64 (-1) (by decide) (by decide) (by decide) (by decide)

/-- C10: `divide` returns a non-nil error exactly when `y = 0`, while the
quotient `-1` is also returned without error (`divide(1, -1)`, `divide(-5, 5)`),
so no test on the quotient alone tells failure from success. -/
theorem divide_error_iff :
    (∀ x y : Int, (divide x y).2 ≠ none ↔ y = 0) ∧
      divide 1 (-1) = (-1, none) ∧ divide (-5) 5 = (-1, none) ∧
      (divide 1 (-1)).1 = (divide 1 0).1 ∧
      ¬ ∃ f : Int → Bool, ∀ x y : Int, isInt64 x → isInt64 y →
          (f (divide x y).1 = true ↔ (divide x y).2 ≠ none) := by
  refine ⟨fun x y => ?_, by decide, by decide, by decide, ?_⟩
  · by_cases h : y = 0 <;> simp [divide, h]
  · rintro ⟨f, hf⟩
    have h1 := hf 1 (-1) (by decide) (by decide)
    have h2 := hf 1 0 (by decide) (by decide)
    have e1 : divide 1 (-1) = (-1, none) := by decide
    have e2 : divide 1 0 = (-1, some (errors.New "division by zero")) := by decide
    rw [e1] at h1
    rw [e2] at h2
    simp at h1 h2
    rw [h2] at h1
    exact absurd h1 (by decide)

/-! ## Lemmas on the span store -/

theorem modifyAt_length_append (f : Span → Span) (l : List Span) (s : Span) (r : List Span) :
    modifyAt f l.length (l ++ s :: r) = l ++ f s :: r := by
  induction l with
  | nil => rfl
  | cons a l ih => simp [modifyAt, ih]

theorem mutate_length_append (f : Span → Span) (l : List Span) (s : Span) (r : List Span)
    (h : s.state = SpanState.active) : mutate l.length f (l ++ s :: r) = l ++ f s :: r := by
  unfold mutate
  rw [modifyAt_length_append]
  simp [h]

theorem mutate_succ_length_append (f : Span → Span) (l : List Span) (a s : Span)
    (r : List Span) (h : s.state = SpanState.active) :
    mutate (l.length + 1) f (l ++ a :: s :: r) = l ++ a :: f s :: r := by
  have := mutate_length_append f (l ++ [a]) s r h
  simpa using this

theorem getElem?_length_append (l : List Span) (a : Span) (r : List Span) :
    (l ++ a :: r)[l.length]? = some a := by
  rw [List.getElem?_append_right (Nat.le_refl _)]
  simp

theorem getElem?_succ_length_append (l : List Span) (a b : Span) (r : List Span) :
    (l ++ a :: b :: r)[l.length + 1]? = some b := by
  have h := getElem?_length_append (l ++ [a]) b r
  simpa using h

theorem stateOf_length_append (l : List Span) (a : Span) (r : List Span) :
    stateOf (l ++ a :: r) l.length = some a.state := by
  simp only [stateOf, getElem?_length_append, Option.map_some']

theorem stateOf_succ_length_append (l : List Span) (a b : Span) (r : List Span) :
    stateOf (l ++ a :: b :: r) (l.length + 1) = some b.state := by
  simp only [stateOf, getElem?_succ_length_append, Option.map_some']

/-- What `childFunction` does to the process state. -/
theorem childFunction_eq (ctx : Context) (tracer : Tracer) (p : Proc) :
    childFunction ctx tracer p =
      { p with
        spans := p.spans ++
          [{ name := "childSpanName", tracer := tracer.name, parent := ctx.span,
             attributes := [⟨"childAttributeKey1", "childAttributeValue1"⟩],
             events := ["ChildSpan-Event"], recordedErrors := [],
             status := (codes.Unset, ""), state := SpanState.ended }],
        trace := p.trace ++
          [SpanOp.Start p.spans.length "childSpanName" tracer.name ctx.span
             [⟨"childAttributeKey1", "childAttributeValue1"⟩],
           SpanOp.AddEvent p.spans.length "ChildSpan-Event",
           SpanOp.End p.spans.length],
        logs := p.logs ++
          ["In child span, when this function returns, childSpan will complete."] } := by
  simp [childFunction, Tracer.Start, Span.AddEvent, Span.End, log.Printf, runDeferred,
    Proc.step, SpanOp.apply, attribute.String, mutate_length_append]

/-- What `parentFunction` does to the process state. -/
theorem parentFunction_eq (ctx : Context) (tracer : Tracer) (p : Proc) :
    parentFunction ctx tracer p =
      { p with
        spans := p.spans ++
          [{ name := "parentSpanName", tracer := tracer.name, parent := ctx.span,
             attributes := [⟨"parentAttributeKey1", "parentAttributeValue1"⟩],
             events := ["ParentSpan-Event"], recordedErrors := [],
             status := (codes.Unset, ""), state := SpanState.ended },
           { name := "childSpanName", tracer := tracer.name, parent := some p.spans.length,
             attributes := [⟨"childAttributeKey1", "childAttributeValue1"⟩],
             events := ["ChildSpan-Event"], recordedErrors := [],
             status := (codes.Unset, ""), state := SpanState.ended }],
        trace := p.trace ++
          [SpanOp.Start p.spans.length "parentSpanName" tracer.name ctx.span
             [⟨"parentAttributeKey1", "parentAttributeValue1"⟩],
           SpanOp.AddEvent p.spans.length "ParentSpan-Event",
           SpanOp.Start (p.spans.length + 1) "childSpanName" tracer.name
             (some p.spans.length) [⟨"childAttributeKey1", "childAttributeValue1"⟩],
           SpanOp.AddEvent (p.spans.length + 1) "ChildSpan-Event",
           SpanOp.End (p.spans.length + 1),
           SpanOp.End p.spans.length],
        logs := p.logs ++
          ["In parent span, before calling a child function.",
           "In child span, when this function returns, childSpan will complete.",
           "In parent span, after calling a child function. When this function ends, parentSpan will complete."] } := by
  simp [parentFunction, childFunction_eq, Tracer.Start, Span.AddEvent, Span.End, log.Printf,
    runDeferred, Proc.step, SpanOp.apply, attribute.String, mutate_length_append]

/-- What `exceptionFunction` does to the process state. -/
theorem exceptionFunction_eq (ctx : Context) (tracer : Tracer) (p : Proc) :
    exceptionFunction ctx tracer p =
      { p with
        spans := p.spans ++
          [{ name := "exceptionSpanName", tracer := tracer.name, parent := ctx.span,
             attributes := [⟨"exceptionAttributeKey1", "exceptionAttributeValue1"⟩],
             events := [], recordedErrors := [⟨"division by zero"⟩],
             status := (codes.Error, "division by zero"), state := SpanState.ended }],
        trace := p.trace ++
          [SpanOp.Start p.spans.length "exceptionSpanName" tracer.name ctx.span
             [⟨"exceptionAttributeKey1", "exceptionAttributeValue1"⟩],
           SpanOp.RecordError p.spans.length ⟨"division by zero"⟩,
           SpanOp.SetStatus p.spans.length codes.Error "division by zero",
           SpanOp.End p.spans.length],
        logs := p.logs ++ ["Call division function."] } := by
  simp [exceptionFunction, divide, errors.New, GoError.Error, Tracer.Start, Span.RecordError,
    Span.SetStatus, Span.End, log.Printf, runDeferred, Proc.step, SpanOp.apply,
    attribute.String, mutate_length_append]

theorem opsOf_of_trace (f : Proc → Proc) (p : Proc) (ops : List SpanOp)
    (h : (f p).trace = p.trace ++ ops) : opsOf f p = ops := by
  simp [opsOf, h]

theorem opsOf_childFunction (ctx : Context) (tracer : Tracer) (p : Proc) :
    opsOf (childFunction ctx tracer) p =
      [SpanOp.Start p.spans.length "childSpanName" tracer.name ctx.span
         [⟨"childAttributeKey1", "childAttributeValue1"⟩],
       SpanOp.AddEvent p.spans.length "ChildSpan-Event",
       SpanOp.End p.spans.length] :=
  opsOf_of_trace _ _ _ (by rw [childFunction_eq])

theorem opsOf_parentFunction (ctx : Context) (tracer : Tracer) (p : Proc) :
    opsOf (parentFunction ctx tracer) p =
      [SpanOp.Start p.spans.length "parentSpanName" tracer.name ctx.span
         [⟨"parentAttributeKey1", "parentAttributeValue1"⟩],
       SpanOp.AddEvent p.spans.length "ParentSpan-Event",
       SpanOp.Start (p.spans.length + 1) "childSpanName" tracer.name
         (some p.spans.length) [⟨"childAttributeKey1", "childAttributeValue1"⟩],
       SpanOp.AddEvent (p.spans.length + 1) "ChildSpan-Event",
       SpanOp.End (p.spans.length + 1),
       SpanOp.End p.spans.length] :=
  opsOf_of_trace _ _ _ (by rw [parentFunction_eq])

theorem opsOf_exceptionFunction (ctx : Context) (tracer : Tracer) (p : Proc) :
    opsOf (exceptionFunction ctx tracer) p =
      [SpanOp.Start p.spans.length "exceptionSpanName" tracer.name ctx.span
         [⟨"exceptionAttributeKey1", "exceptionAttributeValue1"⟩],
       SpanOp.RecordError p.spans.length ⟨"division by zero"⟩,
       SpanOp.SetStatus p.spans.length codes.Error "division by zero",
       SpanOp.End p.spans.length] :=
  opsOf_of_trace _ _ _ (by rw [exceptionFunction_eq])

/-! ## The span routines -/

/-- C3: in every run of `exceptionFunction` the span "exceptionSpanName" is
started, the error returned by `divide 10 0` is recorded on it, its status is
set to `Error` with that error's message "division by zero", and only then it
is ended: right before `End` the span is active with exactly one recorded error
and that status, and it is ended with the same content. -/
theorem exception_span_error (ctx : Context) (tracer : Tracer) (p : Proc) :
    (divide 10 0).2 = some (errors.New "division by zero") ∧
      GoError.Error (errors.New "division by zero") = "division by zero" ∧
      opsOf (exceptionFunction ctx tracer) p =
        [SpanOp.Start p.spans.length "exceptionSpanName" tracer.name ctx.span
           [attribute.String "exceptionAttributeKey1" "exceptionAttributeValue1"],
         SpanOp.RecordError p.spans.length (errors.New "division by zero"),
         SpanOp.SetStatus p.spans.length codes.Error "division by zero"] ++
        [SpanOp.End p.spans.length] ∧
      (replay
          [SpanOp.Start p.spans.length "exceptionSpanName" tracer.name ctx.span
             [attribute.String "exceptionAttributeKey1" "exceptionAttributeValue1"],
           SpanOp.RecordError p.spans.length (errors.New "division by zero"),
           SpanOp.SetStatus p.spans.length codes.Error "division by zero"]
          p.spans)[p.spans.length]? =
        some { name := "exceptionSpanName", tracer := tracer.name, parent := ctx.span,
               attributes := [attribute.String "exceptionAttributeKey1" "exceptionAttributeValue1"],
               events := [], recordedErrors := [errors.New "division by zero"],
               status := (codes.Error, "division by zero"), state := SpanState.active } ∧
      (exceptionFunction ctx tracer p).spans[p.spans.length]? =
        some { name := "exceptionSpanName", tracer := tracer.name, parent := ctx.span,
               attributes := [attribute.String "exceptionAttributeKey1" "exceptionAttributeValue1"],
               events := [], recordedErrors := [errors.New "division by zero"],
               status := (codes.Error, "division by zero"), state := SpanState.ended } ∧
      (exceptionFunction ctx tracer p).spans =
        replay (opsOf (exceptionFunction ctx tracer) p) p.spans := by
  refine ⟨by decide, by decide, ?_, ?_, ?_, ?_⟩
  · rw [opsOf_exceptionFunction]
    simp [attribute.String, errors.New]
  · simp [replay, SpanOp.apply, mutate_length_append, attribute.String, errors.New]
  · rw [exceptionFunction_eq]
    simp [attribute.String, errors.New]
  · rw [opsOf_exceptionFunction, exceptionFunction_eq]
    simp [replay, SpanOp.apply, mutate_length_append]

/-- C4: in the operation log of `parentFunction`, of `childFunction` and of
`exceptionFunction` (whose call `divide 10 0` returns an error), every span that
is started is ended exactly once and is in state ended when the routine
returns; no span is ended twice. -/
theorem spans_ended_exactly_once (ctx : Context) (tracer : Tracer) (p : Proc) :
    EndsItsSpans (parentFunction ctx tracer) p ∧
      EndsItsSpans (childFunction ctx tracer) p ∧
      EndsItsSpans (exceptionFunction ctx tracer) p ∧
      (divide 10 0).2 ≠ none ∧
      startedIn (opsOf (parentFunction ctx tracer) p) = [p.spans.length, p.spans.length + 1] ∧
      startedIn (opsOf (childFunction ctx tracer) p) = [p.spans.length] ∧
      startedIn (opsOf (exceptionFunction ctx tracer) p) = [p.spans.length] := by
  refine ⟨?_, ?_, ?_, by decide, ?_, ?_, ?_⟩
  · unfold EndsItsSpans
    rw [opsOf_parentFunction, parentFunction_eq]
    simp [startedIn, endedIn, stateOf_length_append, stateOf_succ_length_append]
  · unfold EndsItsSpans
    rw [opsOf_childFunction, childFunction_eq]
    simp [startedIn, endedIn, stateOf_length_append]
  · unfold EndsItsSpans
    rw [opsOf_exceptionFunction, exceptionFunction_eq]
    simp [startedIn, endedIn, stateOf_length_append]
  · rw [opsOf_parentFunction]; simp [startedIn]
  · rw [opsOf_childFunction]; simp [startedIn]
  · rw [opsOf_exceptionFunction]; simp [startedIn]

/-- C5: one call of `parentFunction` adds exactly two spans to the span store,
"parentSpanName" and then "childSpanName"; the parent of the child span is the
parent span (whatever span the ambient context carries), the parent of the
parent span is the span of the ambient context; `childFunction` alone and
`exceptionFunction` alone add exactly one span each. -/
theorem spans_created (ctx : Context) (tracer : Tracer) (p : Proc) :
    (parentFunction ctx tracer p).spans.length = p.spans.length + 2 ∧
      (parentFunction ctx tracer p).spans.take p.spans.length = p.spans ∧
      (parentFunction ctx tracer p).spans[p.spans.length]?.map Span.name =
        some "parentSpanName" ∧
      (parentFunction ctx tracer p).spans[p.spans.length + 1]?.map Span.name =
        some "childSpanName" ∧
      (parentFunction ctx tracer p).spans[p.spans.length + 1]?.map Span.parent =
        some (some p.spans.length) ∧
      (parentFunction ctx tracer p).spans[p.spans.length]?.map Span.parent = some ctx.span ∧
      startedIn (opsOf (parentFunction ctx tracer) p) = [p.spans.length, p.spans.length + 1] ∧
      (childFunction ctx tracer p).spans.length = p.spans.length + 1 ∧
      (childFunction ctx tracer p).spans.take p.spans.length = p.spans ∧
      (childFunction ctx tracer p).spans[p.spans.length]?.map Span.parent = some ctx.span ∧
      startedIn (opsOf (childFunction ctx tracer) p) = [p.spans.length] ∧
      (exceptionFunction ctx tracer p).spans.length = p.spans.length + 1 ∧
      (exceptionFunction ctx tracer p).spans.take p.spans.length = p.spans ∧
      startedIn (opsOf (exceptionFunction ctx tracer) p) = [p.spans.length] := by
  rw [opsOf_parentFunction, opsOf_childFunction, opsOf_exceptionFunction, parentFunction_eq,
    childFunction_eq, exceptionFunction_eq]
  simp only [getElem?_length_append, getElem?_succ_length_append]
  simp [startedIn]

/-- C6: the span operations of one call of `parentFunction` are, in order,
parent `Start`, parent `AddEvent`, child `Start`, child `AddEvent`, child `End`,
parent `End`: the operations of the call of `childFunction` (with the context
returned by the parent `Start`) lie between the parent `AddEvent` and the
parent `End`. -/
theorem parent_child_order (ctx : Context) (tracer : Tracer) (p : Proc) :
    opsOf (parentFunction ctx tracer) p =
        [SpanOp.Start p.spans.length "parentSpanName" tracer.name ctx.span
           [attribute.String "parentAttributeKey1" "parentAttributeValue1"],
         SpanOp.AddEvent p.spans.length "ParentSpan-Event",
         SpanOp.Start (p.spans.length + 1) "childSpanName" tracer.name (some p.spans.length)
           [attribute.String "childAttributeKey1" "childAttributeValue1"],
         SpanOp.AddEvent (p.spans.length + 1) "ChildSpan-Event",
         SpanOp.End (p.spans.length + 1),
         SpanOp.End p.spans.length] ∧
      opsOf (parentFunction ctx tracer) p =
        [SpanOp.Start p.spans.length "parentSpanName" tracer.name ctx.span
           [attribute.String "parentAttributeKey1" "parentAttributeValue1"],
         SpanOp.AddEvent p.spans.length "ParentSpan-Event"] ++
        opsOf (childFunction ⟨some p.spans.length⟩ tracer)
          (log.Printf "In parent span, before calling a child function."
            (Span.AddEvent p.spans.length "ParentSpan-Event"
              (tracer.Start ctx "parentSpanName"
                [attribute.String "parentAttributeKey1" "parentAttributeValue1"] p).2)) ++
        [SpanOp.End p.spans.length] := by
  rw [opsOf_parentFunction, opsOf_childFunction]
  simp [attribute.String, log.Printf, Span.AddEvent, Tracer.Start, Proc.step, SpanOp.apply,
    mutate_length_append]

/-! ## Bootstrap and program entry -/

theorem JaegerTraceProvider_ok (ext : External) (exp : Exporter)
    (h : ext.jaegerNew collectorEndpoint = Except.ok exp) :
    JaegerTraceProvider ext =
      (some { batcher := exp,
              resource :=
                { schemaURL := semconv.SchemaURL,
                  attributes :=
                    [attribute.String semconv.ServiceNameKey "manual-service",
                     attribute.String semconv.DeploymentEnvironmentKey "manual-env"] } },
        none) := by
  simp [JaegerTraceProvider, h]

theorem JaegerTraceProvider_error (ext : External) (err : GoError)
    (h : ext.jaegerNew collectorEndpoint = Except.error err) :
    JaegerTraceProvider ext = (none, some err) := by
  simp [JaegerTraceProvider, h]

theorem shutdownHandle_returns (ext : External) (tp : Option TracerProvider) (r : Proc) :
    (shutdownHandle ext tp r).isExited = false ∧
      (shutdownHandle ext tp r).proc.spans = r.spans ∧
      (shutdownHandle ext tp r).proc.trace = r.trace ∧
      (shutdownHandle ext tp r).proc.shutdowns = r.shutdowns + 1 := by
  unfold shutdownHandle
  cases hs : ext.shutdown tp r <;>
    simp [TracerProvider.Shutdown, hs, Outcome.isExited, Outcome.proc, log.Printf]

/-- C7: when the exporter is built, `main` returns without terminating the
process and leaves exactly three spans, started in the order parent, child,
exception: the parent span with attribute
parentAttributeKey1=parentAttributeValue1 and one event, the child span with
attribute childAttributeKey1=childAttributeValue1, one event and the parent
span as its parent, and the exception span with no parent, the one attribute
exceptionAttributeKey1=exceptionAttributeValue1, one recorded error "division
by zero" and status `Error`; all three are ended. -/
theorem main_demonstration (ext : External) (exp : Exporter)
    (h : ext.jaegerNew collectorEndpoint = Except.ok exp) :
    (main ext Proc.initial).isExited = false ∧
      (main ext Proc.initial).proc.spans =
        [{ name := "parentSpanName", tracer := "basic-tracer", parent := none,
           attributes := [attribute.String "parentAttributeKey1" "parentAttributeValue1"],
           events := ["ParentSpan-Event"], recordedErrors := [],
           status := (codes.Unset, ""), state := SpanState.ended },
         { name := "childSpanName", tracer := "basic-tracer", parent := some 0,
           attributes := [attribute.String "childAttributeKey1" "childAttributeValue1"],
           events := ["ChildSpan-Event"], recordedErrors := [],
           status := (codes.Unset, ""), state := SpanState.ended },
         { name := "exceptionSpanName", tracer := "exception-tracer", parent := none,
           attributes :=
             [attribute.String "exceptionAttributeKey1" "exceptionAttributeValue1"],
           events := [], recordedErrors := [errors.New "division by zero"],
           status := (codes.Error, "division by zero"), state := SpanState.ended }] ∧
      startedIn (main ext Proc.initial).proc.trace = [0, 1, 2] ∧
      endedIn (main ext Proc.initial).proc.trace = [1, 0, 2] := by
  have hm : main ext Proc.initial =
      shutdownHandle ext (JaegerTraceProvider ext).1
        (exceptionFunction context.Background
          (TracerProvider.Tracer (JaegerTraceProvider ext).1 "exception-tracer")
          (parentFunction context.Background
            (TracerProvider.Tracer (JaegerTraceProvider ext).1 "basic-tracer")
            (otel.SetTextMapPropagator
              [TextMapPropagator.TraceContext, TextMapPropagator.Baggage]
              (otel.SetTracerProvider (JaegerTraceProvider ext).1 Proc.initial)))) := by
    simp [main, initJaegerTracer, JaegerTraceProvider_ok ext exp h, otel.GetTracerProvider,
      otel.SetTextMapPropagator, otel.SetTracerProvider]
  rw [hm]
  obtain ⟨h1, h2, h3, _⟩ := shutdownHandle_returns ext (JaegerTraceProvider ext).1
    (exceptionFunction context.Background
      (TracerProvider.Tracer (JaegerTraceProvider ext).1 "exception-tracer")
      (parentFunction context.Background
        (TracerProvider.Tracer (JaegerTraceProvider ext).1 "basic-tracer")
        (otel.SetTextMapPropagator
          [TextMapPropagator.TraceContext, TextMapPropagator.Baggage]
          (otel.SetTracerProvider (JaegerTraceProvider ext).1 Proc.initial))))
  rw [h1, h2, h3, exceptionFunction_eq, parentFunction_eq]
  simp [otel.SetTextMapPropagator, otel.SetTracerProvider, Proc.initial, TracerProvider.Tracer,
    context.Background, attribute.String, errors.New, startedIn, endedIn]

/-- Witness of `main_demonstration` in a world where shutdown fails. -/
theorem main_demonstration_witness :
    (main External.failingShutdown Proc.initial).isExited = false ∧
      (main External.failingShutdown Proc.initial).proc.spans =
        [{ name := "parentSpanName", tracer := "basic-tracer", parent := none,
           attributes := [attribute.String "parentAttributeKey1" "parentAttributeValue1"],
           events := ["ParentSpan-Event"], recordedErrors := [],
           status := (codes.Unset, ""), state := SpanState.ended },
         { name := "childSpanName", tracer := "basic-tracer", parent := some 0,
           attributes := [attribute.String "childAttributeKey1" "childAttributeValue1"],
           events := ["ChildSpan-Event"], recordedErrors := [],
           status := (codes.Unset, ""), state := SpanState.ended },
         { name := "exceptionSpanName", tracer := "exception-tracer", parent := none,
           attributes :=
             [attribute.String "exceptionAttributeKey1" "exceptionAttributeValue1"],
           events := [], recordedErrors := [errors.New "division by zero"],
           status := (codes.Error, "division by zero"), state := SpanState.ended }] ∧
      startedIn (main External.failingShutdown Proc.initial).proc.trace = [0, 1, 2] ∧
      endedIn (main External.failingShutdown Proc.initial).proc.trace = [1, 0, 2] :=
  main_demonstration External.failingShutdown ⟨collectorEndpoint⟩ rfl

/-- C8: `JaegerTraceProvider` returns an error exactly when `jaeger.New` does
(the same error), and then returns no provider; `initJaegerTracer` terminates
the process exactly when `JaegerTraceProvider` returns an error; otherwise it
returns with the provider installed as the process-wide default, and the
shutdown handle it returns never terminates the process: when the provider's
`Shutdown` returns an error, the handle returns after logging it. -/
theorem bootstrap_errors (ext : External) (p : Proc) :
    (∀ err : GoError, (JaegerTraceProvider ext).2 = some err ↔
        ext.jaegerNew collectorEndpoint = Except.error err) ∧
      ((JaegerTraceProvider ext).2 ≠ none ↔ (JaegerTraceProvider ext).1 = none) ∧
      ((initJaegerTracer ext p).isExited = true ↔ (JaegerTraceProvider ext).2 ≠ none) ∧
      ((JaegerTraceProvider ext).2 ≠ none →
        ∃ q, initJaegerTracer ext p = Outcome.exited 1 q ∧
          q.tracerProvider = p.tracerProvider ∧ q.spans = p.spans) ∧
      ((JaegerTraceProvider ext).2 = none →
        ∃ tp, (JaegerTraceProvider ext).1 = some tp ∧
          initJaegerTracer ext p =
            Outcome.returned (shutdownHandle ext (some tp))
              { p with tracerProvider := some tp,
                       propagator :=
                         [TextMapPropagator.TraceContext, TextMapPropagator.Baggage] }) ∧
      ∀ (tp : Option TracerProvider) (r : Proc),
        (shutdownHandle ext tp r).isExited = false ∧
          (∀ err : GoError, ext.shutdown tp r = some err →
            shutdownHandle ext tp r =
              Outcome.returned ()
                { r with logs := r.logs ++ ["failed to shutdown TracerProvider: " ++ err.msg],
                         shutdowns := r.shutdowns + 1 }) ∧
          (ext.shutdown tp r = none →
            shutdownHandle ext tp r =
              Outcome.returned () { r with shutdowns := r.shutdowns + 1 }) := by
  refine ⟨?_, ?_, ?_, ?_, ?_, ?_⟩
  · intro err
    cases hj : ext.jaegerNew collectorEndpoint with
    | error e => simp [JaegerTraceProvider, hj]
    | ok exp => simp [JaegerTraceProvider, hj]
  · cases hj : ext.jaegerNew collectorEndpoint with
    | error e => simp [JaegerTraceProvider, hj]
    | ok exp => simp [JaegerTraceProvider, hj]
  · cases hj : ext.jaegerNew collectorEndpoint with
    | error e => simp [initJaegerTracer, JaegerTraceProvider, hj, log.Fatal, Outcome.isExited]
    | ok exp => simp [initJaegerTracer, JaegerTraceProvider, hj, Outcome.isExited]
  · cases hj : ext.jaegerNew collectorEndpoint with
    | error e => simp [initJaegerTracer, JaegerTraceProvider, hj, log.Fatal]
    | ok exp => simp [JaegerTraceProvider, hj]
  · cases hj : ext.jaegerNew collectorEndpoint with
    | error e => simp [JaegerTraceProvider, hj]
    | ok exp =>
      simp [initJaegerTracer, JaegerTraceProvider, hj, otel.SetTracerProvider,
        otel.SetTextMapPropagator]
  · intro tp r
    refine ⟨(shutdownHandle_returns ext tp r).1, fun err hs => ?_, fun hs => ?_⟩
    · simp [shutdownHandle, TracerProvider.Shutdown, hs, log.Printf, GoError.Error]
    · simp [shutdownHandle, TracerProvider.Shutdown, hs]

/-- Sample runs of `main`: three spans when the exporter is built, none and a
terminated process when it is not. -/
theorem main_samples :
    (main External.healthy Proc.initial).proc.spans.length = 3 ∧
      (main External.healthy Proc.initial).isExited = false ∧
      (main External.healthy Proc.initial).proc.logs.length = 4 ∧
      (main External.noExporter Proc.initial).isExited = true ∧
      (main External.noExporter Proc.initial).proc.spans = [] := by
  decide

/-- The bootstrap in a world where the exporter cannot be built: the process
terminates with exit code 1 and the error is the only line logged. -/
theorem bootstrap_noExporter :
    initJaegerTracer External.noExporter Proc.initial =
      Outcome.exited 1 { Proc.initial with logs := ["invalid endpoint"] } := by
  rfl

/-- The shutdown handle in a world where shutdown fails: it returns. -/
theorem shutdown_failing_returns :
    shutdownHandle External.failingShutdown none Proc.initial =
      Outcome.returned ()
        { Proc.initial with
          logs := ["failed to shutdown TracerProvider: context deadline exceeded"],
          shutdowns := 1 } := by
  rfl

end OtelManual
